import Mathlib

/-!
Verification development for the travel-readiness-sentinel repository.

The embedding follows the source files:
  * `src/core/model.py`   — pydantic models `Flight`, `Hotel`, `TripContext`, `Itinerary`
  * `src/validation.py`   — the three readiness checks and `run_all_checks`
  * `src/main.py`         — the CLI aggregation into READY / GROUNDED
  * `src/api.py`          — `validate_itinerary` aggregation

Calendar dates are embedded as `Int` ordinals (`datetime.date` supports
equality and subtraction yielding whole days, which is all the code uses);
`dateStr` stands for Python's `str(date)` rendering.
-/

namespace Sentinel

/-- A calendar date, as its ordinal day number. `datetime.date` in the source
is only ever compared for equality and subtracted (`.days`). -/
abbrev Date := Int

/-- Rendering of a date into a message string (Python `f"{d}"`). -/
def dateStr (d : Date) : String := toString d

/-- Python renders `None` as `"None"` and a date via `str`. -/
def optDateStr : Option Date → String
  | none => "None"
  | some d => dateStr d

/-- The `Literal['arrival', 'departure']` flight kind from `src/core/model.py`. -/
inductive FlightType where
  | arrival
  | departure
deriving DecidableEq, Repr

/-- `Flight` model (`src/core/model.py`): kind, flight number and the two
optional dates. Valid instances are produced by `buildFlight` below. -/
structure Flight where
  type : FlightType
  flight_number : String
  arrival_date : Option Date := none
  departure_date : Option Date := none
deriving DecidableEq, Repr

/-- The `flight_date` property:
`self.arrival_date if self.type == 'arrival' else self.departure_date`. -/
def Flight.flight_date (f : Flight) : Option Date :=
  if f.type = FlightType.arrival then f.arrival_date else f.departure_date

/-- `Hotel` model (`src/core/model.py`). -/
structure Hotel where
  hotel_name : String
  check_in : Date
  check_out : Date
deriving DecidableEq, Repr

/-- The `stay_duration` property: `(self.check_out - self.check_in).days`. -/
def Hotel.stay_duration (h : Hotel) : Int := h.check_out - h.check_in

/-- `TripContext` model (`src/core/model.py`). -/
structure TripContext where
  destination : String
  start_date : Date
  end_date : Date
  total_duration_days : Int
deriving DecidableEq, Repr

/-- `Itinerary` model (`src/core/model.py`). -/
structure Itinerary where
  trip_details : TripContext
  flights : List Flight
  accommodation : Hotel
deriving DecidableEq, Repr

/-! ### Pydantic construction of a `Flight`

A raw flight mapping whose required fields are present and whose date values
parse; `type` is still an arbitrary string, checked against the `Literal`. -/

/-- Raw input mapping for `Flight` construction. -/
structure RawFlight where
  type : String
  flight_number : String
  arrival_date : Option Date := none
  departure_date : Option Date := none
deriving DecidableEq, Repr

/-- Phase 1 of pydantic validation: per-field type checks and
`@field_validator` functions, with errors collected across fields.
The `Literal['arrival','departure']` check on `type` and
`validate_flight_code` (`len(v) < 3` ⇒ `'Invalid Flight Number'`). -/
def fieldErrors (raw : RawFlight) : List String :=
  (if raw.type = "arrival" ∨ raw.type = "departure" then []
   else ["Input should be 'arrival' or 'departure'"]) ++
  (if raw.flight_number.length < 3 then ["Invalid Flight Number"] else [])

/-- The `@model_validator(mode='after')` `validate_flight_date`: a chain of
`if ... raise ValueError(...)`, so only the FIRST violated invariant is
reported. It only runs when phase 1 produced no errors. -/
def modelErrors (ty : FlightType) (arrival_date departure_date : Option Date) :
    List String :=
  if ty = FlightType.arrival ∧ arrival_date = none then
    ["Arrival flights must have arrival_date"]
  else if ty = FlightType.departure ∧ departure_date = none then
    ["Departure flights must have departure_date"]
  else if ty = FlightType.arrival ∧ departure_date ≠ none then
    ["Arrival flights should not have departure_date"]
  else if ty = FlightType.departure ∧ arrival_date ≠ none then
    ["Departure flights should not have arrival_date"]
  else []

/-- The value of the `Literal['arrival','departure']` field once field
validation has accepted it. -/
def rawType (raw : RawFlight) : FlightType :=
  if raw.type = "arrival" then FlightType.arrival else FlightType.departure

/-- Pydantic construction `Flight(**raw)` (see `fieldErrors` / `modelErrors`):
on any error a `ValidationError` carrying the error list is raised and no
model instance exists. -/
def buildFlight (raw : RawFlight) : Except (List String) Flight :=
  if fieldErrors raw = [] then
    if modelErrors (rawType raw) raw.arrival_date raw.departure_date = [] then
      Except.ok
        { type := rawType raw
          flight_number := raw.flight_number
          arrival_date := raw.arrival_date
          departure_date := raw.departure_date }
    else Except.error (modelErrors (rawType raw) raw.arrival_date raw.departure_date)
  else Except.error (fieldErrors raw)

/-! ### The readiness checks (`src/validation.py`) -/

/-- `CheckResult` dataclass from `src/validation.py`. -/
structure CheckResult where
  check_name : String
  passed : Bool
  message : String
deriving DecidableEq, Repr

/-- `ArrivalAlignmentCheck.run`. `next(f for f in data.flights if f.type ==
'arrival')` raises `StopIteration` when no arrival flight exists, embedded
as `none`. -/
def arrivalAlignmentRun (name : String) (data : Itinerary) : Option CheckResult :=
  match data.flights.find? (fun f => f.type == FlightType.arrival) with
  | none => none
  | some arrival_flight =>
    if arrival_flight.flight_date = some data.accommodation.check_in then
      some { check_name := name
             passed := true
             message := "Flight arrival (" ++ optDateStr arrival_flight.flight_date
               ++ ") matches hotel check-in" }
    else
      some { check_name := name
             passed := false
             message := "Flight lands on " ++ optDateStr arrival_flight.flight_date
               ++ ", but Hotel check-in is " ++ dateStr data.accommodation.check_in }

/-- `DurationCoverageCheck.run`; total on any `Itinerary`. -/
def durationCoverageRun (name : String) (data : Itinerary) : CheckResult :=
  let trip_days := data.trip_details.total_duration_days
  let hotel_days := data.accommodation.stay_duration
  if hotel_days ≥ trip_days then
    { check_name := name
      passed := true
      message := "Hotel covers full trip duration (" ++ toString hotel_days
        ++ " nights >= " ++ toString trip_days ++ " nights)" }
  else
    { check_name := name
      passed := false
      message := "Gap Detected! Trip is " ++ toString trip_days
        ++ " nights, but hotel is only " ++ toString hotel_days ++ " nights." }

/-- `DepartureAlignmentCheck.run`; `none` embeds the `StopIteration` raised
when no departure flight exists. -/
def departureAlignmentRun (name : String) (data : Itinerary) : Option CheckResult :=
  match data.flights.find? (fun f => f.type == FlightType.departure) with
  | none => none
  | some dept_flight =>
    if dept_flight.flight_date = some data.trip_details.end_date then
      some { check_name := name
             passed := true
             message := "Departure flight (" ++ optDateStr dept_flight.flight_date
               ++ ") matches trip end date" }
    else
      some { check_name := name
             passed := false
             message := "Visa Risk! Trip ends on " ++ dateStr data.trip_details.end_date
               ++ " but flight is " ++ optDateStr dept_flight.flight_date }

/-- The identity of each concrete `ReadinessCheck` subclass. -/
inductive CheckId where
  | arrivalAlignment
  | durationCoverage
  | departureAlignment
deriving DecidableEq, Repr

/-- A check object: its class together with the `name` passed to `__init__`. -/
structure ReadinessCheck where
  id : CheckId
  name : String
deriving DecidableEq, Repr

/-- Dynamic dispatch of `check.run(data)`; `none` embeds a raised exception. -/
def ReadinessCheck.run (c : ReadinessCheck) (data : Itinerary) : Option CheckResult :=
  match c.id with
  | CheckId.arrivalAlignment => arrivalAlignmentRun c.name data
  | CheckId.durationCoverage => some (durationCoverageRun c.name data)
  | CheckId.departureAlignment => departureAlignmentRun c.name data

/-- `get_all_checks()` from `src/validation.py`. -/
def get_all_checks : List ReadinessCheck :=
  [ { id := CheckId.arrivalAlignment, name := "Arrival Date Alignment" },
    { id := CheckId.durationCoverage, name := "Full Accommodation Coverage" },
    { id := CheckId.departureAlignment, name := "Exit Strategy Alignment" } ]

/-- Sequential evaluation of the comprehension
`[check.run(itinerary) for check in checks]`: an exception raised by any
`run` (embedded as `none`) aborts the whole comprehension, so no partial
list is ever produced. -/
def collectRuns (itinerary : Itinerary) : List ReadinessCheck → Option (List CheckResult)
  | [] => some []
  | check :: rest =>
    match check.run itinerary with
    | none => none
    | some r => (collectRuns itinerary rest).map (fun rs => r :: rs)

/-- `run_all_checks` from `src/validation.py`. -/
def run_all_checks (itinerary : Itinerary) : Option (List CheckResult) :=
  collectRuns itinerary get_all_checks

/-! ### The CLI aggregation (`src/main.py`) -/

/-- Python truthiness of a `CheckResult`: the dataclass defines neither
`__bool__` nor `__len__`, so `bool(instance)` is always `True`. -/
def checkResultTruthy (_r : CheckResult) : Bool := true

/-- The tally in `main`: `passed = check.run(itinerary); if not passed:
failures += 1` — it tests the truthiness of the returned `CheckResult`
object, not its `passed` field. -/
def mainFailures (itinerary : Itinerary) : Option Nat :=
  (run_all_checks itinerary).map
    (fun rs => (rs.filter (fun r => !checkResultTruthy r)).length)

/-- The overall CLI status printed by `main`. -/
inductive MainStatus where
  | ready
  | grounded (failures : Nat)
deriving DecidableEq, Repr

/-- `main`'s verdict: READY when `failures == 0`, else GROUNDED with the
failure count; `none` when a check raised. -/
def mainStatus (itinerary : Itinerary) : Option MainStatus :=
  (mainFailures itinerary).map
    (fun failures =>
      if failures = 0 then MainStatus.ready else MainStatus.grounded failures)

/-- The aggregation the spec describes: tally `failed = count(not passed)`
over the returned `CheckResult`s (this is what `validate_itinerary` in
`src/api.py` computes as `failed_count`). -/
def specFailed (rs : List CheckResult) : Nat :=
  (rs.filter (fun r => !r.passed)).length

/-- The status the spec prescribes from the tally. -/
def specStatus (rs : List CheckResult) : MainStatus :=
  if specFailed rs = 0 then MainStatus.ready else MainStatus.grounded (specFailed rs)

/-- A substring occurrence: `sub` appears contiguously inside `s`. -/
def containsStr (s sub : String) : Prop :=
  ∃ pre post : String, s = pre ++ sub ++ post

/-! ### Concrete itineraries used to instantiate the theorems
(dates written as day ordinals). -/

/-- Scenario A of the spec: everything aligned (Tokyo, 7 days). -/
def scenarioA : Itinerary :=
  { trip_details :=
      { destination := "Tokyo", start_date := 10, end_date := 17
        total_duration_days := 7 }
    flights :=
      [ { type := FlightType.arrival, flight_number := "NH110", arrival_date := some 10 },
        { type := FlightType.departure, flight_number := "NH111", departure_date := some 17 } ]
    accommodation :=
      { hotel_name := "Park Hyatt Tokyo", check_in := 10, check_out := 17 } }

/-- Scenario B of the spec: every check fails (London). -/
def scenarioB : Itinerary :=
  { trip_details :=
      { destination := "London", start_date := 10, end_date := 17
        total_duration_days := 7 }
    flights :=
      [ { type := FlightType.arrival, flight_number := "BA117", arrival_date := some 11 },
        { type := FlightType.departure, flight_number := "BA118", departure_date := some 16 } ]
    accommodation :=
      { hotel_name := "The Savoy", check_in := 10, check_out := 15 } }

/-- An itinerary whose flights sequence holds no arrival flight. -/
def noArrivalItin : Itinerary :=
  { scenarioA with
    flights :=
      [ { type := FlightType.departure, flight_number := "NH111", departure_date := some 17 } ] }

/-- An itinerary whose flights sequence holds no departure flight. -/
def noDepartureItin : Itinerary :=
  { scenarioA with
    flights :=
      [ { type := FlightType.arrival, flight_number := "NH110", arrival_date := some 10 } ] }

/-- An itinerary with `check_in == check_out` (a zero-night stay). -/
def zeroStayItin : Itinerary :=
  { scenarioA with
    accommodation := { hotel_name := "Capsule", check_in := 10, check_out := 10 } }

/-- The raw flight mapping of claim C7: `kind=arrival`, `arrival_date` absent,
`departure_date` present, and a 2-character flight number. -/
def rawC7 : RawFlight :=
  { type := "arrival", flight_number := "JL", departure_date := some 17 }

/-- A well-formed raw arrival flight mapping. -/
def rawGoodArrival : RawFlight :=
  { type := "arrival", flight_number := "NH110", arrival_date := some 10 }

/-! ### Helper lemmas -/

/-- `find?` returns the element at the first index satisfying the predicate. -/
theorem find?_first {α : Type} (p : α → Bool) :
    ∀ (l : List α) (i : Nat) (hi : i < l.length),
      p (l.get ⟨i, hi⟩) = true →
      (∀ j, (hj : j < i) → p (l.get ⟨j, Nat.lt_trans hj hi⟩) = false) →
      l.find? p = some (l.get ⟨i, hi⟩)
  | a :: l, 0, _, hp, _ => by
      simpa using List.find?_cons_of_pos l (by simpa using hp)
  | a :: l, i + 1, hi, hp, hfirst => by
      have ha : p a = false := hfirst 0 (Nat.succ_pos i)
      have ih := find?_first p l i (Nat.lt_of_succ_lt_succ hi) (by simpa using hp)
        (fun j hj => by simpa using hfirst (j + 1) (Nat.succ_lt_succ hj))
      rw [List.find?_cons_of_neg _ (by simp [ha])]
      simpa using ih

/-- A hit inside the left part of an append is the hit of the whole list. -/
theorem find?_append_left {α : Type} (p : α → Bool) (b : α) :
    ∀ (l₁ : List α) (l₂ : List α), l₁.find? p = some b →
      (l₁ ++ l₂).find? p = some b
  | [], _, h => by simp [List.find?] at h
  | a :: l₁, l₂, h => by
      by_cases ha : p a = true
      · rw [List.find?_cons_of_pos _ ha] at h
        simpa [List.find?_cons_of_pos _ ha] using h
      · have ha' : p a = false := by simpa using ha
        rw [List.find?_cons_of_neg _ (by simp [ha'])] at h
        rw [List.cons_append, List.find?_cons_of_neg _ (by simp [ha'])]
        exact find?_append_left p b l₁ l₂ h

/-- The second block of a four-block concatenation occurs in it. -/
theorem containsStr_mid (a b c d : String) : containsStr (a ++ b ++ c ++ d) b :=
  ⟨a, c ++ d, String.append_assoc (a ++ b) c d⟩

/-- The final block of a concatenation occurs in it. -/
theorem containsStr_end (a b : String) : containsStr (a ++ b) b :=
  ⟨a, "", (String.append_empty (a ++ b)).symm⟩

/-- Reduction of `arrivalAlignmentRun` once the scan has found a flight. -/
theorem arrivalRun_found (name : String) (itin : Itinerary) (b : Flight)
    (hfind : itin.flights.find? (fun f => f.type == FlightType.arrival) = some b) :
    arrivalAlignmentRun name itin =
      if b.flight_date = some itin.accommodation.check_in then
        some { check_name := name, passed := true,
               message := "Flight arrival (" ++ optDateStr b.flight_date
                 ++ ") matches hotel check-in" }
      else
        some { check_name := name, passed := false,
               message := "Flight lands on " ++ optDateStr b.flight_date
                 ++ ", but Hotel check-in is " ++ dateStr itin.accommodation.check_in } := by
  unfold arrivalAlignmentRun
  rw [hfind]

/-- Reduction of `departureAlignmentRun` once the scan has found a flight. -/
theorem departureRun_found (name : String) (itin : Itinerary) (b : Flight)
    (hfind : itin.flights.find? (fun f => f.type == FlightType.departure) = some b) :
    departureAlignmentRun name itin =
      if b.flight_date = some itin.trip_details.end_date then
        some { check_name := name, passed := true,
               message := "Departure flight (" ++ optDateStr b.flight_date
                 ++ ") matches trip end date" }
      else
        some { check_name := name, passed := false,
               message := "Visa Risk! Trip ends on " ++ dateStr itin.trip_details.end_date
                 ++ " but flight is " ++ optDateStr b.flight_date } := by
  unfold departureAlignmentRun
  rw [hfind]

/-! ### Claim theorems -/

/-- C1: the claimed aggregate fails on `main`. At Scenario B all three checks
return `passed = false` (the spec's tally `failed = count(not passed)` is 3,
and its status would be GROUNDED 3), yet `main` reports READY: the loop in
`src/main.py` tests the truthiness of the returned `CheckResult` object —
always `True` for a plain dataclass — instead of its `passed` field, so its
failure count is always 0. -/
theorem C1_main_ready_despite_failures :
    (run_all_checks scenarioB).map specFailed = some 3 ∧
    (run_all_checks scenarioB).map specStatus = some (MainStatus.grounded 3) ∧
    mainStatus scenarioB = some MainStatus.ready :=
  ⟨rfl, rfl, rfl⟩

/-- C2: an itinerary with no flight of the required kind makes the
corresponding alignment check raise (`StopIteration`, embedded as `none`)
instead of returning a `CheckResult`, and `run_all_checks` on such an
itinerary aborts without producing a partial list. -/
theorem C2_missing_kind_aborts (itin : Itinerary) :
    ((∀ f ∈ itin.flights, f.type ≠ FlightType.arrival) →
      (∀ name, arrivalAlignmentRun name itin = none) ∧ run_all_checks itin = none) ∧
    ((∀ f ∈ itin.flights, f.type ≠ FlightType.departure) →
      (∀ name, departureAlignmentRun name itin = none) ∧ run_all_checks itin = none) := by
  constructor
  · intro h
    have hfind : itin.flights.find? (fun f => f.type == FlightType.arrival) = none := by
      rw [List.find?_eq_none]
      intro f hf
      simpa using h f hf
    have harr : ∀ name, arrivalAlignmentRun name itin = none := by
      intro name
      simp [arrivalAlignmentRun, hfind]
    exact ⟨harr, by simp [run_all_checks, collectRuns, get_all_checks, ReadinessCheck.run, harr]⟩
  · intro h
    have hfind : itin.flights.find? (fun f => f.type == FlightType.departure) = none := by
      rw [List.find?_eq_none]
      intro f hf
      simpa using h f hf
    have hdep : ∀ name, departureAlignmentRun name itin = none := by
      intro name
      simp [departureAlignmentRun, hfind]
    refine ⟨hdep, ?_⟩
    cases harr : arrivalAlignmentRun "Arrival Date Alignment" itin with
    | none =>
      simp [run_all_checks, collectRuns, get_all_checks, ReadinessCheck.run, harr]
    | some r =>
      simp [run_all_checks, collectRuns, get_all_checks, ReadinessCheck.run, harr, hdep]

/-- Witness for C2: concrete itineraries lacking an arrival (resp. departure)
flight make the whole run abort. -/
theorem C2_missing_kind_aborts_witness :
    run_all_checks noArrivalItin = none ∧ run_all_checks noDepartureItin = none :=
  ⟨((C2_missing_kind_aborts noArrivalItin).1 (by decide)).2,
   ((C2_missing_kind_aborts noDepartureItin).2 (by decide)).2⟩

/-- C3: when flight `i` is the first arrival flight of the sequence, the
Arrival Alignment check returns a result, passes iff that flight's
`flight_date` equals `accommodation.check_in`, and on failure its message
contains both the flight's landing date and the hotel's check-in date. -/
theorem C3_arrival_alignment (name : String) (itin : Itinerary) (i : Nat)
    (hi : i < itin.flights.length)
    (harr : (itin.flights.get ⟨i, hi⟩).type = FlightType.arrival)
    (hfirst : ∀ j, (hj : j < i) →
      (itin.flights.get ⟨j, Nat.lt_trans hj hi⟩).type ≠ FlightType.arrival) :
    ∃ r, arrivalAlignmentRun name itin = some r ∧
      (r.passed = true ↔
        (itin.flights.get ⟨i, hi⟩).flight_date = some itin.accommodation.check_in) ∧
      (r.passed = false →
        containsStr r.message (optDateStr (itin.flights.get ⟨i, hi⟩).flight_date) ∧
        containsStr r.message (dateStr itin.accommodation.check_in)) := by
  have hfind : itin.flights.find? (fun f => f.type == FlightType.arrival)
      = some (itin.flights.get ⟨i, hi⟩) :=
    find?_first _ itin.flights i hi (by simpa using harr)
      (fun j hj => by simpa using hfirst j hj)
  rw [arrivalRun_found name itin _ hfind]
  by_cases heq :
      (itin.flights.get ⟨i, hi⟩).flight_date = some itin.accommodation.check_in
  · rw [if_pos heq]
    exact ⟨_, rfl, by simpa using heq, by intro hcontra; simp at hcontra⟩
  · rw [if_neg heq]
    refine ⟨_, rfl, by simpa using heq, fun _ => ?_⟩
    exact ⟨containsStr_mid _ _ _ _, containsStr_end _ _⟩

/-- Witness for C3 at Scenario B (misaligned arrival, index 0). -/
theorem C3_arrival_alignment_witness :
    ∃ r, arrivalAlignmentRun "Arrival Date Alignment" scenarioB = some r ∧
      (r.passed = true ↔
        (scenarioB.flights.get ⟨0, by decide⟩).flight_date =
          some scenarioB.accommodation.check_in) ∧
      (r.passed = false →
        containsStr r.message
          (optDateStr (scenarioB.flights.get ⟨0, by decide⟩).flight_date) ∧
        containsStr r.message (dateStr scenarioB.accommodation.check_in)) :=
  C3_arrival_alignment "Arrival Date Alignment" scenarioB 0 (by decide) (by decide)
    (fun j hj => absurd hj (Nat.not_lt_zero j))

/-- C4: Duration Coverage passes iff `stay_duration` (check_out − check_in in
whole days) is at least `total_duration_days`; a zero-night stay is processed
without error and fails whenever `total_duration_days > 0`; strict
over-coverage still passes. -/
theorem C4_duration_coverage (name : String) (itin : Itinerary) :
    ((durationCoverageRun name itin).passed = true ↔
      itin.accommodation.stay_duration ≥ itin.trip_details.total_duration_days) ∧
    (itin.accommodation.check_in = itin.accommodation.check_out →
      0 < itin.trip_details.total_duration_days →
      (durationCoverageRun name itin).passed = false) ∧
    (itin.accommodation.stay_duration > itin.trip_details.total_duration_days →
      (durationCoverageRun name itin).passed = true) := by
  have hpass : (durationCoverageRun name itin).passed =
      decide (itin.accommodation.stay_duration ≥ itin.trip_details.total_duration_days) := by
    unfold durationCoverageRun
    dsimp only
    split_ifs with h <;> simp [h]
  refine ⟨by simp [hpass], ?_, ?_⟩
  · intro hce hpos
    have h0 : itin.accommodation.stay_duration = 0 := by
      simp [Hotel.stay_duration, hce]
    rw [hpass]
    simp only [decide_eq_false_iff_not]
    omega
  · intro hgt
    rw [hpass]
    simp only [decide_eq_true_eq]
    omega

/-- Witness for C4: a zero-night stay against a 7-day trip fails, and exact
coverage (Scenario A) passes. -/
theorem C4_duration_coverage_witness :
    (durationCoverageRun "Full Accommodation Coverage" zeroStayItin).passed = false ∧
    (durationCoverageRun "Full Accommodation Coverage" scenarioA).passed = true :=
  ⟨(C4_duration_coverage "Full Accommodation Coverage" zeroStayItin).2.1 rfl (by decide),
   (C4_duration_coverage "Full Accommodation Coverage" scenarioA).1.mpr (by decide)⟩

/-- C5: when flight `i` is the first departure flight of the sequence, the
Departure Alignment check returns a result, passes iff that flight's
`flight_date` equals `trip.end_date`, and on failure its message contains
both the trip end date and the flight's date. -/
theorem C5_departure_alignment (name : String) (itin : Itinerary) (i : Nat)
    (hi : i < itin.flights.length)
    (hdep : (itin.flights.get ⟨i, hi⟩).type = FlightType.departure)
    (hfirst : ∀ j, (hj : j < i) →
      (itin.flights.get ⟨j, Nat.lt_trans hj hi⟩).type ≠ FlightType.departure) :
    ∃ r, departureAlignmentRun name itin = some r ∧
      (r.passed = true ↔
        (itin.flights.get ⟨i, hi⟩).flight_date = some itin.trip_details.end_date) ∧
      (r.passed = false →
        containsStr r.message (dateStr itin.trip_details.end_date) ∧
        containsStr r.message (optDateStr (itin.flights.get ⟨i, hi⟩).flight_date)) := by
  have hfind : itin.flights.find? (fun f => f.type == FlightType.departure)
      = some (itin.flights.get ⟨i, hi⟩) :=
    find?_first _ itin.flights i hi (by simpa using hdep)
      (fun j hj => by simpa using hfirst j hj)
  rw [departureRun_found name itin _ hfind]
  by_cases heq :
      (itin.flights.get ⟨i, hi⟩).flight_date = some itin.trip_details.end_date
  · rw [if_pos heq]
    exact ⟨_, rfl, by simpa using heq, by intro hcontra; simp at hcontra⟩
  · rw [if_neg heq]
    refine ⟨_, rfl, by simpa using heq, fun _ => ?_⟩
    exact ⟨containsStr_mid _ _ _ _, containsStr_end _ _⟩

/-- Witness for C5 at Scenario B (misaligned departure, index 1). -/
theorem C5_departure_alignment_witness :
    ∃ r, departureAlignmentRun "Exit Strategy Alignment" scenarioB = some r ∧
      (r.passed = true ↔
        (scenarioB.flights.get ⟨1, by decide⟩).flight_date =
          some scenarioB.trip_details.end_date) ∧
      (r.passed = false →
        containsStr r.message (dateStr scenarioB.trip_details.end_date) ∧
        containsStr r.message
          (optDateStr (scenarioB.flights.get ⟨1, by decide⟩).flight_date)) :=
  C5_departure_alignment "Exit Strategy Alignment" scenarioB 1 (by decide) (by decide)
    (fun j hj => by
      have hj0 : j = 0 := by omega
      subst hj0
      simp [scenarioB])

/-- Field validation succeeds exactly when the kind is a member of the
literal and the flight number is long enough. -/
theorem fieldErrors_nil_iff (raw : RawFlight) :
    fieldErrors raw = [] ↔
      (raw.type = "arrival" ∨ raw.type = "departure") ∧
        ¬raw.flight_number.length < 3 := by
  unfold fieldErrors
  split_ifs <;> simp [*]

/-- The after-model validator succeeds exactly when the optional-date
invariant of the flight kind holds. -/
theorem modelErrors_nil_iff (ty : FlightType) (a d : Option Date) :
    modelErrors ty a d = [] ↔
      ¬((ty = FlightType.arrival ∧ (a = none ∨ d ≠ none)) ∨
        (ty = FlightType.departure ∧ (d = none ∨ a ≠ none))) := by
  cases ty <;> cases a <;> cases d <;> simp [modelErrors]

/-- The after-model validator raises at most one message (it stops at the
first violated invariant). -/
theorem modelErrors_length (ty : FlightType) (a d : Option Date) :
    (modelErrors ty a d).length ≤ 1 := by
  cases ty <;> cases a <;> cases d <;> simp [modelErrors]

/-- Construction succeeds exactly when both validation phases do. -/
theorem buildFlight_ok_iff (raw : RawFlight) :
    (∃ f, buildFlight raw = Except.ok f) ↔
      fieldErrors raw = [] ∧
        modelErrors (rawType raw) raw.arrival_date raw.departure_date = [] := by
  unfold buildFlight
  split_ifs <;> simp [*]

/-- Construction raises exactly when one of the phases fails. -/
theorem buildFlight_error_iff (raw : RawFlight) :
    (∃ es, buildFlight raw = Except.error es) ↔
      ¬(fieldErrors raw = [] ∧
        modelErrors (rawType raw) raw.arrival_date raw.departure_date = []) := by
  unfold buildFlight
  split_ifs <;> simp [*]

/-- C6: `Flight` construction fails exactly when the flight number is shorter
than 3 characters, or the kind is outside {arrival, departure}, or the
optional-date invariant of the kind is violated; a mapping with none of
these defects constructs successfully. -/
theorem C6_flight_construction (raw : RawFlight) :
    ((∃ es, buildFlight raw = Except.error es) ↔
      (raw.flight_number.length < 3 ∨
       (raw.type ≠ "arrival" ∧ raw.type ≠ "departure") ∨
       (raw.type = "arrival" ∧
         (raw.arrival_date = none ∨ raw.departure_date ≠ none)) ∨
       (raw.type = "departure" ∧
         (raw.departure_date = none ∨ raw.arrival_date ≠ none)))) ∧
    ((∃ f, buildFlight raw = Except.ok f) ↔
      ¬(raw.flight_number.length < 3 ∨
        (raw.type ≠ "arrival" ∧ raw.type ≠ "departure") ∨
        (raw.type = "arrival" ∧
          (raw.arrival_date = none ∨ raw.departure_date ≠ none)) ∨
        (raw.type = "departure" ∧
          (raw.departure_date = none ∨ raw.arrival_date ≠ none)))) := by
  have herr := buildFlight_error_iff raw
  have hok := buildFlight_ok_iff raw
  rw [fieldErrors_nil_iff raw,
      modelErrors_nil_iff (rawType raw) raw.arrival_date raw.departure_date] at herr hok
  by_cases hta : raw.type = "arrival"
  · have hrt : rawType raw = FlightType.arrival := by simp [rawType, hta]
    rw [hrt] at herr hok
    by_cases ha : raw.arrival_date = none <;>
      by_cases hd : raw.departure_date = none <;>
        by_cases hn : raw.flight_number.length < 3 <;>
          simp [herr, hok, hta, ha, hd, hn]
  · by_cases htd : raw.type = "departure"
    · have hrt : rawType raw = FlightType.departure := by simp [rawType, hta]
      rw [hrt] at herr hok
      by_cases ha : raw.arrival_date = none <;>
        by_cases hd : raw.departure_date = none <;>
          by_cases hn : raw.flight_number.length < 3 <;>
            simp [herr, hok, hta, htd, ha, hd, hn]
    · constructor
      · rw [herr]
        simp [hta, htd]
      · rw [hok]
        simp [hta, htd]

/-- C7 counterexample: on the mapping of the claim (kind=arrival,
`arrival_date` absent, `departure_date` present, 2-character flight number)
the validation failure reports only the flight-number violation — it does
not enumerate the two violated date invariants. -/
theorem C7_only_first_phase_reported :
    buildFlight rawC7 = Except.error ["Invalid Flight Number"] ∧
    "Arrival flights must have arrival_date" ∉ ["Invalid Flight Number"] ∧
    "Arrival flights should not have departure_date" ∉ ["Invalid Flight Number"] := by
  refine ⟨rfl, ?_, ?_⟩ <;> decide

/-- C7 (amended): construction is atomic — it yields either a fully-typed
`Flight` or a non-empty error list, never a partial instance. Violations
found by FIELD validation are enumerated together (an invalid kind and a
short flight number are both reported), but the date-invariant validator
only runs when field validation succeeded, and then reports only the first
violated invariant, so an error list never carries more than one
date-invariant message alongside nothing else. -/
theorem C7_atomic_enumeration (raw : RawFlight) :
    ((∃ f, buildFlight raw = Except.ok f) ∨
      (∃ es, buildFlight raw = Except.error es ∧ es ≠ [])) ∧
    (fieldErrors raw ≠ [] → buildFlight raw = Except.error (fieldErrors raw)) ∧
    (¬(raw.type = "arrival" ∨ raw.type = "departure") →
      raw.flight_number.length < 3 →
      buildFlight raw = Except.error
        ["Input should be 'arrival' or 'departure'", "Invalid Flight Number"]) ∧
    (∀ es, buildFlight raw = Except.error es → fieldErrors raw = [] →
      es.length = 1) := by
  refine ⟨?_, ?_, ?_, ?_⟩
  · unfold buildFlight
    split_ifs with h1 h2
    · exact Or.inl ⟨_, rfl⟩
    · exact Or.inr ⟨_, rfl, h2⟩
    · exact Or.inr ⟨_, rfl, h1⟩
  · intro hne
    unfold buildFlight
    rw [if_neg hne]
  · intro ht hn
    have hfe : fieldErrors raw =
        ["Input should be 'arrival' or 'departure'", "Invalid Flight Number"] := by
      unfold fieldErrors
      rw [if_neg ht, if_pos hn]
      rfl
    unfold buildFlight
    rw [if_neg (by simp [hfe])]
    rw [hfe]
  · intro es hes hfe
    unfold buildFlight at hes
    rw [if_pos hfe] at hes
    split_ifs at hes with h2
    have hlen := modelErrors_length (rawType raw) raw.arrival_date raw.departure_date
    have hes' : modelErrors (rawType raw) raw.arrival_date raw.departure_date = es := by
      simpa using hes
    subst hes'
    have h0 :
        (modelErrors (rawType raw) raw.arrival_date raw.departure_date).length ≠ 0 := by
      simpa [List.length_eq_zero] using h2
    omega

/-- Witness for C7 (amended): a mapping with an invalid kind and a short
flight number has both field violations reported together. -/
theorem C7_atomic_enumeration_witness :
    buildFlight { type := "X", flight_number := "JL" } =
      Except.error
        ["Input should be 'arrival' or 'departure'", "Invalid Flight Number"] :=
  (C7_atomic_enumeration { type := "X", flight_number := "JL" }).2.2.1
    (by decide) (by decide)

/-- C8: `get_all_checks` is fixed at three entries in the order Arrival
Alignment, Duration Coverage, Departure Alignment, and whenever
`run_all_checks` returns a result list it is the three results in that
same order. -/
theorem C8_fixed_order (itinerary : Itinerary) :
    get_all_checks.length = 3 ∧
    get_all_checks.map ReadinessCheck.id =
      [CheckId.arrivalAlignment, CheckId.durationCoverage, CheckId.departureAlignment] ∧
    (∀ rs, run_all_checks itinerary = some rs →
      ∃ r1 r3,
        arrivalAlignmentRun "Arrival Date Alignment" itinerary = some r1 ∧
        departureAlignmentRun "Exit Strategy Alignment" itinerary = some r3 ∧
        rs = [r1, durationCoverageRun "Full Accommodation Coverage" itinerary, r3]) := by
  refine ⟨rfl, rfl, ?_⟩
  intro rs hrs
  cases h1 : arrivalAlignmentRun "Arrival Date Alignment" itinerary with
  | none =>
    simp [run_all_checks, get_all_checks, collectRuns, ReadinessCheck.run, h1] at hrs
  | some r1 =>
    cases h3 : departureAlignmentRun "Exit Strategy Alignment" itinerary with
    | none =>
      simp [run_all_checks, get_all_checks, collectRuns, ReadinessCheck.run,
        h1, h3] at hrs
    | some r3 =>
      simp [run_all_checks, get_all_checks, collectRuns, ReadinessCheck.run,
        h1, h3] at hrs
      refine ⟨r1, r3, rfl, rfl, ?_⟩
      rw [hrs]

/-- Witness for C8 at Scenario A. -/
theorem C8_fixed_order_witness :
    ∃ r1 r3,
      arrivalAlignmentRun "Arrival Date Alignment" scenarioA = some r1 ∧
      departureAlignmentRun "Exit Strategy Alignment" scenarioA = some r3 ∧
      (run_all_checks scenarioA).getD [] =
        [r1, durationCoverageRun "Full Accommodation Coverage" scenarioA, r3] :=
  (C8_fixed_order scenarioA).2.2 ((run_all_checks scenarioA).getD []) rfl

/-- C9: every `Flight` that passes construction validation has a present
`flight_date`: it equals `arrival_date` for arrivals and `departure_date`
for departures, and the relevant date is never `none`. -/
theorem C9_flight_date_present (raw : RawFlight) (f : Flight)
    (h : buildFlight raw = Except.ok f) :
    f.flight_date.isSome = true ∧
    (f.type = FlightType.arrival →
      f.flight_date = f.arrival_date ∧ f.arrival_date.isSome = true) ∧
    (f.type = FlightType.departure →
      f.flight_date = f.departure_date ∧ f.departure_date.isSome = true) := by
  unfold buildFlight at h
  split_ifs at h with h1 h2
  injection h with hf
  subst hf
  have hme := (modelErrors_nil_iff (rawType raw) raw.arrival_date raw.departure_date).mp h2
  cases hrt : rawType raw with
  | arrival =>
    rw [hrt] at hme
    have ha : raw.arrival_date ≠ none := fun hc => hme (Or.inl ⟨rfl, Or.inl hc⟩)
    refine ⟨?_, fun _ => ⟨?_, ?_⟩, fun hc => ?_⟩
    · exact Option.isSome_iff_ne_none.mpr ha
    · rfl
    · exact Option.isSome_iff_ne_none.mpr ha
    · exact FlightType.noConfusion hc
  | departure =>
    rw [hrt] at hme
    have hd : raw.departure_date ≠ none := fun hc => hme (Or.inr ⟨rfl, Or.inl hc⟩)
    refine ⟨?_, fun hc => ?_, fun _ => ⟨?_, ?_⟩⟩
    · exact Option.isSome_iff_ne_none.mpr hd
    · exact FlightType.noConfusion hc
    · rfl
    · exact Option.isSome_iff_ne_none.mpr hd

/-- Witness for C9 at a well-formed raw arrival mapping. -/
theorem C9_flight_date_present_witness :
    (Flight.flight_date
      { type := FlightType.arrival, flight_number := "NH110",
        arrival_date := some 10, departure_date := none }).isSome = true :=
  (C9_flight_date_present rawGoodArrival
    { type := FlightType.arrival, flight_number := "NH110",
      arrival_date := some 10, departure_date := none } rfl).1

/-- C10: when a flight of the required kind exists, the corresponding
alignment check returns a result (no error), and appending extra flights
after the sequence never changes that result. -/
theorem C10_first_match_stable (name : String) (itin : Itinerary)
    (extra : List Flight) :
    ((∃ f ∈ itin.flights, f.type = FlightType.arrival) →
      (∃ r, arrivalAlignmentRun name itin = some r) ∧
      arrivalAlignmentRun name { itin with flights := itin.flights ++ extra } =
        arrivalAlignmentRun name itin) ∧
    ((∃ f ∈ itin.flights, f.type = FlightType.departure) →
      (∃ r, departureAlignmentRun name itin = some r) ∧
      departureAlignmentRun name { itin with flights := itin.flights ++ extra } =
        departureAlignmentRun name itin) := by
  constructor
  · rintro ⟨f, hf, hty⟩
    obtain ⟨b, hb⟩ :
        ∃ b, itin.flights.find? (fun g => g.type == FlightType.arrival) = some b := by
      rw [← Option.isSome_iff_exists, List.find?_isSome]
      exact ⟨f, hf, by simpa using hty⟩
    have hb2 :
        ({ itin with flights := itin.flights ++ extra } : Itinerary).flights.find?
          (fun g => g.type == FlightType.arrival) = some b :=
      find?_append_left _ b itin.flights extra hb
    rw [arrivalRun_found name itin b hb,
      arrivalRun_found name { itin with flights := itin.flights ++ extra } b hb2]
    exact ⟨by split_ifs <;> exact ⟨_, rfl⟩, rfl⟩
  · rintro ⟨f, hf, hty⟩
    obtain ⟨b, hb⟩ :
        ∃ b, itin.flights.find? (fun g => g.type == FlightType.departure) = some b := by
      rw [← Option.isSome_iff_exists, List.find?_isSome]
      exact ⟨f, hf, by simpa using hty⟩
    have hb2 :
        ({ itin with flights := itin.flights ++ extra } : Itinerary).flights.find?
          (fun g => g.type == FlightType.departure) = some b :=
      find?_append_left _ b itin.flights extra hb
    rw [departureRun_found name itin b hb,
      departureRun_found name { itin with flights := itin.flights ++ extra } b hb2]
    exact ⟨by split_ifs <;> exact ⟨_, rfl⟩, rfl⟩

/-- An extra arrival flight used to instantiate C10. -/
def extraArrival : Flight :=
  { type := FlightType.arrival, flight_number := "XX999", arrival_date := some 12 }

/-- Witness for C10 at Scenario A with one extra arrival flight appended. -/
theorem C10_first_match_stable_witness :
    arrivalAlignmentRun "Arrival Date Alignment"
        { scenarioA with flights := scenarioA.flights ++ [extraArrival] } =
      arrivalAlignmentRun "Arrival Date Alignment" scenarioA :=
  ((C10_first_match_stable "Arrival Date Alignment" scenarioA [extraArrival]).1
    (by decide)).2

end Sentinel
